import Mathlib

/-!
Shallow embedding of the map-view lifecycle controller
(`src/src/components/MapboxMap.tsx`) of the rdr2-map repository.

The component is single-threaded and event-driven: all work happens in
callbacks on one execution context.  We model it as a state machine: a
`CState` record mirroring the component's React state and refs, a `step`
function transcribing each callback of the source, an `evGuard` predicate
recording when the browser/React can deliver each event, and a `render`
function transcribing the component's JSX branches.  SDK calls performed
by the component (map/marker construction and release, `setStyle`,
`setLngLat`, `addTo`) are logged in an `actions` trace so that ordering
claims can be stated.

Coordinates are (longitude, latitude) pairs of rationals; the source does
no floating-point arithmetic on them (they are only stored, compared for
truthiness, and passed to the SDK), so `Rat` is a faithful carrier for
the literals involved.
-/

namespace MapboxMap

/-- Coordinates as (longitude, latitude) pairs, Mapbox [lng, lat] order. -/
abbrev Coord := Rat × Rat

/-- The fixed fallback location `[-0.09, 51.505]` (London), used whenever
geolocation fails (MapboxMap.tsx lines 153, 189, 235, 356). -/
def londonFallback : Coord := (-0.09, 51.505)

/-- The built-in default style identifier, the target of every automatic
style fallback (lines 215, 298, 314, 317). -/
def defaultStyleId : String := "mapbox://styles/mapbox/streets-v12"

/-- The hardcoded custom style identifier used when neither `styleUrl` nor
`localStylePath` is supplied (line 228). -/
def customStyleId : String := "mapbox://styles/mamalmirza/cmgtuwcll003k01qrexcs3se4"

/-- JavaScript truthiness of an optional string prop: `undefined`/`null`
and the empty string are falsy. -/
def strTruthy : Option String → Bool
  | none => false
  | some s => s != ""

/-- Whether the first character list occurs at the head of the second. -/
def matchesAt : List Char → List Char → Bool
  | [], _ => true
  | _ :: _, [] => false
  | a :: as, b :: bs => (a == b) && matchesAt as bs

/-- Whether the needle occurs contiguously anywhere in the haystack. -/
def charsInclude (needle : List Char) : List Char → Bool
  | [] => matchesAt needle []
  | b :: bs => matchesAt needle (b :: bs) || charsInclude needle bs

/-- JavaScript `hay.includes(needle)`: the needle occurs as a contiguous
substring of the haystack. -/
def strIncludes (hay needle : String) : Bool :=
  charsInclude needle.data hay.data

/-- Style resolution of `createMap` (lines 214-231): `mapStyle` starts as
the default fallback but is overwritten in every branch — `styleUrl` if
truthy, else `localStylePath` if truthy, else the hardcoded custom style. -/
def resolveMapStyle (styleUrl localStylePath : Option String) : String :=
  if strTruthy styleUrl then styleUrl.getD ""
  else if strTruthy localStylePath then localStylePath.getD ""
  else customStyleId

/-- Map center of `createMap` (line 235): `userLocation || [-0.09, 51.505]`. -/
def mapCenter (userLocation : Option Coord) : Coord :=
  userLocation.getD londonFallback

/-- Player-marker anchor computed in the `'load'` handler (line 356):
`userLocation || [-0.09, 51.505]` — the device location or the London
fallback, independently of any searched/selected location. -/
def playerLocation (userLocation : Option Coord) : Coord :=
  userLocation.getD londonFallback

/-- Human-readable message for a geolocation failure (lines 172-184).
Codes follow the W3C GeolocationPositionError constants:
1 = PERMISSION_DENIED, 2 = POSITION_UNAVAILABLE, 3 = TIMEOUT; any other
code keeps the generic initial message. -/
def geoErrorMessage (code : Nat) : String :=
  if code = 1 then "Location access denied by user"
  else if code = 2 then "Location information is unavailable"
  else if code = 3 then "Location request timed out"
  else "Unable to get your location"

/-- Construction-time, immutable-per-mount configuration of the component
(MapboxMapProps, lines 5-11).  `className` is presentation-only and
omitted. -/
structure Props where
  accessToken : String
  styleUrl : Option String
  localStylePath : Option String
  selectedLocation : Option Coord

/-- SDK calls issued by the controller, in issue order. -/
inductive Action
  | newMap (center : Coord) (style : String)
  | setStyle (style : String)
  | newMarker
  | setMarkerPos (pos : Coord)
  | addMarkerToMap
  | removeMarker
  | removeMap
deriving DecidableEq, Repr

/-- Component state: React state hooks and instance refs of `MapboxMap`
(lines 34-41), plus the live-handle contents, the pending-timeout flag,
a ghost flag recording whether the map `'load'` event has fired, the
location captured by the `createMap` closure, and the SDK action log.
`mapInstance` carries the style currently set on the handle;
`markerInstance` carries `some pos` once `setLngLat pos` has run and
`none` for a freshly constructed marker. -/
structure CState where
  mapInstance : Option String
  markerInstance : Option (Option Coord)
  isLoading : Bool
  error : Option String
  userLocation : Option Coord
  locationError : Option String
  locationRequested : Bool
  retryCount : Nat
  capturedLocation : Option Coord
  timeoutActive : Bool
  loadFired : Bool
  actions : List Action
deriving DecidableEq, Repr

/-- The state at mount: loading, no error, nothing resolved or created. -/
def initState : CState :=
  { mapInstance := none, markerInstance := none, isLoading := true,
    error := none, userLocation := none, locationError := none,
    locationRequested := false, retryCount := 0, capturedLocation := none,
    timeoutActive := false, loadFired := false, actions := [] }

/-- Events the browser/React delivers to the component.  `locSuccess`
carries the platform's (latitude, longitude); `timeoutEvent` carries
whether the `setStyle` fallback attempt inside the timeout callback
throws; `loadEvent` carries whether direct custom-element marker
construction throws (selecting the try branch or the catch branch of
lines 360-379 — both anchor the marker identically). -/
inductive Ev
  | mount
  | locUnsupported
  | locSuccess (latitude longitude : Rat)
  | locFailure (code : Nat)
  | locEffect
  | createMapEv
  | errorEvent (msg : Option String)
  | timeoutEvent (setStyleThrows : Bool)
  | loadEvent (directMarkerThrows : Bool)
  | retryClick
  | unmount
deriving DecidableEq, Repr

/-- Mount effect (lines 439-452): with a falsy access token, record the
configuration error and stop loading; otherwise issue the geolocation
request (which first sets `locationRequested`). -/
def mountStep (p : Props) (s : CState) : CState :=
  if p.accessToken = "" then
    { s with error := some "No Mapbox access token provided", isLoading := false }
  else
    { s with locationRequested := true }

/-- Geolocation-unsupported branch of `getCurrentPosition` (lines 150-155). -/
def geoUnsupportedStep (s : CState) : CState :=
  { s with locationError := some "Geolocation is not supported by this browser",
           userLocation := some londonFallback }

/-- Geolocation success callback (lines 164-169): store `[lng, lat]`
(longitude first) and clear any previous location error. -/
def geoSuccessStep (latitude longitude : Rat) (s : CState) : CState :=
  { s with userLocation := some (longitude, latitude), locationError := none }

/-- Geolocation failure callback (lines 170-190): map the failure code to
a message, record it, and fall back to the fixed London location. -/
def geoFailureStep (code : Nat) (s : CState) : CState :=
  { s with locationError := some (geoErrorMessage code),
           userLocation := some londonFallback }

/-- The effect of lines 429-437 ("Force transition from loading to map
container after location is determined"): clears `isLoading` as soon as
the token is truthy and either a location is known or the request has
completed without one. -/
def locationEffectStep (p : Props) (s : CState) : CState :=
  if (p.accessToken != "") && s.isLoading && s.userLocation.isSome then
    { s with isLoading := false }
  else if (p.accessToken != "") && s.isLoading && s.locationRequested
      && s.userLocation.isNone then
    { s with isLoading := false }
  else s

/-- Map construction inside `createMap` (lines 214-255): resolve the
style, center on the resolved location (or fallback), create the handle,
start the load-detection timeout.  The `'load'` closure created here
captures the render's `userLocation`, recorded in `capturedLocation`. -/
def createMapStep (p : Props) (s : CState) : CState :=
  let style := resolveMapStyle p.styleUrl p.localStylePath
  let center := mapCenter s.userLocation
  { s with mapInstance := some style,
           capturedLocation := s.userLocation,
           timeoutActive := true,
           actions := s.actions ++ [Action.newMap center style] }

/-- A map `'error'` event.  Both registered handlers run in registration
order: the first (lines 259-263) records `Map load error: <message>`
(an absent or empty message shows as `Unknown error`) and clears
`isLoading`; the second (lines 289-304) switches the handle to the
default style when the message mentions "style" (a throw of `setStyle`,
e.g. on a null handle, is caught and only logged). -/
def errorEventStep (msg : Option String) (s : CState) : CState :=
  let shown := match msg with
    | some m => if m = "" then "Unknown error" else m
    | none => "Unknown error"
  let s1 := { s with error := some ("Map load error: " ++ shown), isLoading := false }
  let isStyleErr := match msg with
    | some m => strIncludes m "style"
    | none => false
  if isStyleErr then
    match s1.mapInstance with
    | some _ => { s1 with mapInstance := some defaultStyleId,
                          actions := s1.actions ++ [Action.setStyle defaultStyleId] }
    | none => s1
  else s1

/-- The terminal timeout message (line 326). -/
def timeoutErrorMsg : String :=
  "Map load timeout - please check console for details. Try refreshing the page."

/-- The load-timeout callback (lines 308-328), closing over the resolved
`mapStyle`: with a live handle and a non-default resolved style it tries
one switch to the default style and returns; on the default style, a dead
handle, or a throwing switch it records the terminal timeout error and
clears `isLoading`.  The timer was one-shot, so it cannot fire again. -/
def timeoutStep (mapStyle : String) (setStyleThrows : Bool) (s : CState) : CState :=
  let s0 := { s with timeoutActive := false }
  if s0.mapInstance.isSome && (mapStyle != defaultStyleId) then
    if setStyleThrows then
      { s0 with error := some timeoutErrorMsg, isLoading := false }
    else
      { s0 with mapInstance := some defaultStyleId,
                actions := s0.actions ++ [Action.setStyle defaultStyleId] }
  else
    { s0 with error := some timeoutErrorMsg, isLoading := false }

/-- The map `'load'` handler (lines 333-387): cancel the timeout, remove
any pre-existing marker, construct a marker, anchor it at the captured
device location (never a searched location), attach it, clear
`isLoading`.  Both the direct-construction branch and its catch fallback
anchor the marker at the same `playerLocation`. -/
def loadStep (s : CState) : CState :=
  let s0 := { s with timeoutActive := false, loadFired := true }
  let s1 :=
    if s0.markerInstance.isSome then
      { s0 with markerInstance := none, actions := s0.actions ++ [Action.removeMarker] }
    else s0
  let loc := playerLocation s.capturedLocation
  let s2 := { s1 with markerInstance := some none,
                      actions := s1.actions ++ [Action.newMarker] }
  let s3 :=
    if s2.markerInstance.isSome && s2.mapInstance.isSome then
      { s2 with markerInstance := some (some loc),
                actions := s2.actions ++ [Action.setMarkerPos loc, Action.addMarkerToMap] }
    else s2
  { s3 with isLoading := false }

/-- The retry button handler (lines 472-487): clear the error, re-enter
loading, bump the retry counter, then release the MAP handle first and
the marker handle after — in that source order. -/
def handleRetryStep (s : CState) : CState :=
  let s0 := { s with error := none, isLoading := true, retryCount := s.retryCount + 1 }
  let s1 :=
    if s0.mapInstance.isSome then
      { s0 with mapInstance := none, actions := s0.actions ++ [Action.removeMap] }
    else s0
  if s1.markerInstance.isSome then
    { s1 with markerInstance := none, actions := s1.actions ++ [Action.removeMarker] }
  else s1

/-- The unmount cleanup (lines 454-465): release the marker first, then
the map, nulling both refs. -/
def cleanupStep (s : CState) : CState :=
  let s1 :=
    if s.markerInstance.isSome then
      { s with markerInstance := none, actions := s.actions ++ [Action.removeMarker] }
    else s
  if s1.mapInstance.isSome then
    { s1 with mapInstance := none, actions := s1.actions ++ [Action.removeMap] }
  else s1

/-- One transition of the controller. -/
def step (p : Props) (s : CState) : Ev → CState
  | .mount => mountStep p s
  | .locUnsupported => geoUnsupportedStep s
  | .locSuccess lat lng => geoSuccessStep lat lng s
  | .locFailure code => geoFailureStep code s
  | .locEffect => locationEffectStep p s
  | .createMapEv => createMapStep p s
  | .errorEvent msg => errorEventStep msg s
  | .timeoutEvent th => timeoutStep (resolveMapStyle p.styleUrl p.localStylePath) th s
  | .loadEvent _ => loadStep s
  | .retryClick => handleRetryStep s
  | .unmount => cleanupStep s

/-- When each event can be delivered: geolocation callbacks only after the
request was issued; map creation only once the container is rendered
(no error, not loading) with a truthy token and a resolved-or-failed
location (the `mapRef` conditions, lines 407-417); SDK events only with
a live handle; the one-shot timeout only while pending; retry only from
the error panel. -/
def evGuard (p : Props) (s : CState) : Ev → Bool
  | .mount => true
  | .locUnsupported => s.locationRequested
  | .locSuccess _ _ => s.locationRequested
  | .locFailure _ => s.locationRequested
  | .locEffect => true
  | .createMapEv => (p.accessToken != "") && s.error.isNone && (!s.isLoading)
      && (s.userLocation.isSome || s.locationRequested)
  | .errorEvent _ => s.mapInstance.isSome
  | .timeoutEvent _ => s.mapInstance.isSome && s.timeoutActive
  | .loadEvent _ => s.mapInstance.isSome
  | .retryClick => s.error.isSome
  | .unmount => true

/-- Run a list of events from a state. -/
def runEvents (p : Props) (s : CState) (evs : List Ev) : CState :=
  evs.foldl (step p) s

/-- A list of events is a valid schedule from `s`: each event's guard
holds in the state it is delivered in. -/
def validFrom (p : Props) (s : CState) : List Ev → Bool
  | [] => true
  | e :: rest => evGuard p s e && validFrom p (step p s e) rest

/-- What the component renders (lines 470-535): the error panel when an
error is recorded (showing the message, `retryCount > 0 ? retryCount : 1`,
and a hint once `retryCount >= 2`), else the spinner while loading (with
a requesting-location subtext iff neither a location nor a location error
exists, and a using-default subtext iff a location error exists), else
the map container. -/
inductive View
  | errorPanel (msg : String) (displayedRetry : Nat) (showHint : Bool)
  | loadingView (requestingLocation : Bool) (usingDefault : Bool)
  | mapContainer
deriving DecidableEq, Repr

/-- Render function of the component. -/
def render (s : CState) : View :=
  match s.error with
  | some msg =>
      View.errorPanel msg (if s.retryCount > 0 then s.retryCount else 1)
        (decide (s.retryCount ≥ 2))
  | none =>
      if s.isLoading then
        View.loadingView (s.userLocation.isNone && s.locationError.isNone)
          s.locationError.isSome
      else View.mapContainer

/-! Concrete inputs used to witness and to refute claims. -/

/-- A mount configuration with a valid token and no style props. -/
def demoProps : Props :=
  { accessToken := "tok", styleUrl := none, localStylePath := none,
    selectedLocation := none }

/-- Mount, geolocation denial, then the forcing location effect — no map
exists yet. -/
def traceC1 : List Ev := [.mount, .locFailure 1, .locEffect]

/-- A full run to a live map and marker, then a (non-style) map error and
a user retry. -/
def traceC3 : List Ev :=
  [.mount, .locFailure 1, .locEffect, .createMapEv, .loadEvent false,
   .errorEvent (some "boom"), .retryClick]

/-- A run where the SDK reports a style-related error before load
completion, and the map then loads. -/
def traceC4 : List Ev :=
  [.mount, .locFailure 1, .locEffect, .createMapEv,
   .errorEvent (some "there was a style problem"), .loadEvent false]

/-- A run where the SDK delivers two style-related error events before
load completion. -/
def traceC8 : List Ev :=
  [.mount, .locFailure 1, .locEffect, .createMapEv,
   .errorEvent (some "bad style A"), .errorEvent (some "bad style B")]

/-! Claim theorems. -/

/-- Claim C1 is false as stated: on the concrete valid schedule
`traceC1` (mount, geolocation denial, the forcing effect of lines
429-437) the controller renders the ready map container although the
map `'load'` event has not fired — indeed no map instance exists yet. -/
theorem C1_counterexample :
    validFrom demoProps initState traceC1 = true ∧
    render (runEvents demoProps initState traceC1) = View.mapContainer ∧
    (runEvents demoProps initState traceC1).loadFired = false ∧
    (runEvents demoProps initState traceC1).mapInstance = none := by
  refine ⟨by decide, by decide, by decide, by decide⟩

/-- Claim C1, amended: the presentation state transitions from loading to
ready as soon as coordinates are resolved (or acquisition has definitively
failed), via the forcing effect of lines 429-437 — before and
independently of the map `'load'` event, which merely re-clears the
already-cleared loading flag. -/
theorem C1_ready_on_location (p : Props) (s : CState)
    (htok : p.accessToken ≠ "") (hload : s.isLoading = true)
    (herr : s.error = none)
    (hloc : s.userLocation.isSome = true ∨ s.locationRequested = true) :
    render (step p s Ev.locEffect) = View.mapContainer ∧
    (step p s Ev.locEffect).loadFired = s.loadFired ∧
    (step p s Ev.locEffect).mapInstance = s.mapInstance := by
  have hbne : (p.accessToken != "") = true := by
    simpa using htok
  have hstep : step p s Ev.locEffect = { s with isLoading := false } := by
    show locationEffectStep p s = _
    unfold locationEffectStep
    rcases hiso : s.userLocation.isSome with _ | _
    · have hreq : s.locationRequested = true := by
        rcases hloc with h | h
        · rw [hiso] at h; cases h
        · exact h
      have hisn : s.userLocation.isNone = true := by
        rcases h : s.userLocation with _ | _
        · rfl
        · rw [h] at hiso; cases hiso
      simp [hbne, hload, hiso, hreq, hisn]
    · simp [hbne, hload, hiso]
  rw [hstep]
  refine ⟨?_, rfl, rfl⟩
  simp [render, herr]

/-- Witness for the amended C1 at a concrete input: after mount and a
denied geolocation, the forcing effect alone reaches the ready view with
no load event and no map instance. -/
theorem C1_witness :
    render (step demoProps (runEvents demoProps initState [Ev.mount, Ev.locFailure 1])
        Ev.locEffect) = View.mapContainer ∧
    (step demoProps (runEvents demoProps initState [Ev.mount, Ev.locFailure 1])
        Ev.locEffect).loadFired
      = (runEvents demoProps initState [Ev.mount, Ev.locFailure 1]).loadFired ∧
    (step demoProps (runEvents demoProps initState [Ev.mount, Ev.locFailure 1])
        Ev.locEffect).mapInstance
      = (runEvents demoProps initState [Ev.mount, Ev.locFailure 1]).mapInstance :=
  C1_ready_on_location demoProps _ (by decide) (by decide) (by decide)
    (Or.inl (by decide))

/-- Claim C2 (confirmed): whenever the `'load'` handler places the marker
(which requires a live map handle), the marker is anchored at the
resolved device coordinates — the location captured when `createMap` ran,
defaulting to the fixed London fallback — and the handler's result is the
same for every value of `selectedLocation`. -/
theorem C2_marker_tracks_device_location (p : Props) (s : CState) (b : Bool)
    (hmap : s.mapInstance.isSome = true) :
    (step p s (Ev.loadEvent b)).markerInstance
      = some (some (playerLocation s.capturedLocation)) ∧
    playerLocation s.capturedLocation = s.capturedLocation.getD londonFallback ∧
    (∀ sel₁ sel₂ : Option Coord,
      step { p with selectedLocation := sel₁ } s (Ev.loadEvent b)
        = step { p with selectedLocation := sel₂ } s (Ev.loadEvent b)) := by
  refine ⟨?_, rfl, fun sel₁ sel₂ => rfl⟩
  show (loadStep s).markerInstance = _
  unfold loadStep
  rcases hmk : s.markerInstance with _ | _ <;>
    simp [hmk, hmap]

/-- Witness for C2 at a concrete input: after a denied geolocation and
map creation, the load handler anchors the marker at the London
fallback. -/
theorem C2_witness :
    (step demoProps
        (runEvents demoProps initState [Ev.mount, Ev.locFailure 1, Ev.locEffect, Ev.createMapEv])
        (Ev.loadEvent false)).markerInstance
      = some (some (playerLocation
          (runEvents demoProps initState
            [Ev.mount, Ev.locFailure 1, Ev.locEffect, Ev.createMapEv]).capturedLocation)) :=
  (C2_marker_tracks_device_location demoProps _ false (by decide)).1

/-- Claim C3 is false as stated: on the concrete valid schedule `traceC3`
the user-initiated retry releases the MAP handle strictly before the
marker handle (the last two logged SDK calls), not the marker first.
Both handles are null afterwards. -/
theorem C3_counterexample :
    validFrom demoProps initState traceC3 = true ∧
    (runEvents demoProps initState traceC3).actions =
      [Action.newMap londonFallback customStyleId, Action.newMarker,
       Action.setMarkerPos londonFallback, Action.addMarkerToMap,
       Action.removeMap, Action.removeMarker] ∧
    Action.removeMap ≠ Action.removeMarker ∧
    (runEvents demoProps initState traceC3).mapInstance = none ∧
    (runEvents demoProps initState traceC3).markerInstance = none := by
  refine ⟨by decide, by rfl, by decide, by decide, by decide⟩

/-- Claim C3, amended: on unmount the marker is removed and released
strictly before the map; on user-initiated retry the map is removed
first and the marker after; on both teardown paths both handles are null
afterwards. -/
theorem C3_teardown_order (s : CState)
    (hmap : s.mapInstance.isSome = true) (hmk : s.markerInstance.isSome = true) :
    (cleanupStep s).actions = s.actions ++ [Action.removeMarker, Action.removeMap] ∧
    (cleanupStep s).markerInstance = none ∧
    (cleanupStep s).mapInstance = none ∧
    (handleRetryStep s).actions = s.actions ++ [Action.removeMap, Action.removeMarker] ∧
    (handleRetryStep s).markerInstance = none ∧
    (handleRetryStep s).mapInstance = none := by
  unfold cleanupStep handleRetryStep
  simp [hmap, hmk]

/-- Witness for the amended C3 at a concrete state: the live-map,
live-marker state reached just before the retry of `traceC3`. -/
theorem C3_witness :
    (cleanupStep (runEvents demoProps initState (traceC3.take 6))).markerInstance = none ∧
    (cleanupStep (runEvents demoProps initState (traceC3.take 6))).mapInstance = none ∧
    (handleRetryStep (runEvents demoProps initState (traceC3.take 6))).markerInstance = none ∧
    (handleRetryStep (runEvents demoProps initState (traceC3.take 6))).mapInstance = none := by
  have h := C3_teardown_order (runEvents demoProps initState (traceC3.take 6))
    (by decide) (by decide)
  exact ⟨h.2.1, h.2.2.1, h.2.2.2.2.1, h.2.2.2.2.2⟩

/-- Behaviour of a map `'error'` event whose message mentions "style",
delivered while the map handle is live: the first handler records the
error and clears loading, the second switches the handle to the default
style, logging exactly one `setStyle` call. -/
theorem errorEventStep_style_spec (s : CState) (m : String)
    (hmap : s.mapInstance.isSome = true) (hstyle : strIncludes m "style" = true) :
    (errorEventStep (some m) s).error
      = some ("Map load error: " ++ (if m = "" then "Unknown error" else m)) ∧
    (errorEventStep (some m) s).isLoading = false ∧
    (errorEventStep (some m) s).mapInstance = some defaultStyleId ∧
    (errorEventStep (some m) s).actions = s.actions ++ [Action.setStyle defaultStyleId] := by
  obtain ⟨st, hst⟩ := Option.isSome_iff_exists.mp hmap
  unfold errorEventStep
  simp [hst, hstyle]

/-- Claim C4 is false as stated: on the concrete valid schedule `traceC4`
a style-related error event before load completion does trigger the
automatic switch to the default style (exactly one `setStyle` call), but
the first generic error handler also records the error, so the controller
renders the error panel — and still does so after the map load completes,
never reaching the ready view. -/
theorem C4_counterexample :
    validFrom demoProps initState traceC4 = true ∧
    ((runEvents demoProps initState traceC4).actions.filter
        (fun a => a = Action.setStyle defaultStyleId)).length = 1 ∧
    (runEvents demoProps initState traceC4).loadFired = true ∧
    render (runEvents demoProps initState traceC4)
      = View.errorPanel "Map load error: there was a style problem" 1 false := by
  refine ⟨by decide, by decide, by decide, by decide⟩

/-- Claim C4, amended: on a style-related error event before load
completion the controller attempts the automatic switch to the built-in
default style, but it also enters the error state from that same event —
the first generic error handler records `Map load error: <message>` and
clears the loading flag — so the error panel is shown instead of the
ready view. -/
theorem C4_style_error_switches_and_errors (p : Props) (s : CState) (m : String)
    (hmap : s.mapInstance.isSome = true) (hstyle : strIncludes m "style" = true)
    (hne : m ≠ "") :
    (step p s (Ev.errorEvent (some m))).mapInstance = some defaultStyleId ∧
    (step p s (Ev.errorEvent (some m))).actions
      = s.actions ++ [Action.setStyle defaultStyleId] ∧
    (step p s (Ev.errorEvent (some m))).error = some ("Map load error: " ++ m) ∧
    (step p s (Ev.errorEvent (some m))).isLoading = false := by
  have h := errorEventStep_style_spec s m hmap hstyle
  refine ⟨h.2.2.1, h.2.2.2, ?_, h.2.1⟩
  have h1 := h.1
  rw [if_neg hne] at h1
  exact h1

/-- Witness for the amended C4 at a concrete input: the live-map state of
`traceC4` just before its style error event. -/
theorem C4_witness :
    (step demoProps (runEvents demoProps initState (traceC4.take 4))
        (Ev.errorEvent (some "there was a style problem"))).mapInstance
      = some defaultStyleId ∧
    (step demoProps (runEvents demoProps initState (traceC4.take 4))
        (Ev.errorEvent (some "there was a style problem"))).error
      = some ("Map load error: " ++ "there was a style problem") := by
  have h := C4_style_error_switches_and_errors demoProps
    (runEvents demoProps initState (traceC4.take 4)) "there was a style problem"
    (by decide) (by decide) (by decide)
  exact ⟨h.1, h.2.2.1⟩

/-- Claim C5 (confirmed): when the load timeout fires with a live handle
and a non-default resolved style, the controller attempts exactly one
automatic switch to the built-in default style, does not touch the error
or loading state, and the one-shot timer cannot fire again; when the
resolved style is already the default, or the switch attempt itself
throws, it records the terminal load-timeout error and clears loading,
issuing no SDK call. -/
theorem C5_timeout_fallback_or_terminal (p : Props) (s : CState)
    (hmap : s.mapInstance.isSome = true) :
    (resolveMapStyle p.styleUrl p.localStylePath ≠ defaultStyleId →
      (step p s (Ev.timeoutEvent false)).error = s.error ∧
      (step p s (Ev.timeoutEvent false)).isLoading = s.isLoading ∧
      (step p s (Ev.timeoutEvent false)).actions
        = s.actions ++ [Action.setStyle defaultStyleId] ∧
      (step p s (Ev.timeoutEvent false)).mapInstance = some defaultStyleId ∧
      (∀ b : Bool,
        evGuard p (step p s (Ev.timeoutEvent false)) (Ev.timeoutEvent b) = false)) ∧
    (∀ b : Bool, resolveMapStyle p.styleUrl p.localStylePath = defaultStyleId →
      (step p s (Ev.timeoutEvent b)).error = some timeoutErrorMsg ∧
      (step p s (Ev.timeoutEvent b)).isLoading = false ∧
      (step p s (Ev.timeoutEvent b)).actions = s.actions) ∧
    ((step p s (Ev.timeoutEvent true)).error = some timeoutErrorMsg ∧
      (step p s (Ev.timeoutEvent true)).isLoading = false ∧
      (step p s (Ev.timeoutEvent true)).actions = s.actions) := by
  obtain ⟨st, hst⟩ := Option.isSome_iff_exists.mp hmap
  refine ⟨fun hres => ?_, fun b hres => ?_, ?_⟩
  · have hbne : (resolveMapStyle p.styleUrl p.localStylePath != defaultStyleId) = true := by
      simpa using hres
    simp only [step]
    unfold timeoutStep
    simp [hst, hbne, evGuard]
  · simp only [step]
    unfold timeoutStep
    simp [hst, hres]
  · simp only [step]
    unfold timeoutStep
    by_cases hres : resolveMapStyle p.styleUrl p.localStylePath = defaultStyleId
    · simp [hst, hres]
    · have hbne : (resolveMapStyle p.styleUrl p.localStylePath != defaultStyleId) = true := by
        simpa using hres
      simp [hst, hbne]

/-- Witness for C5 at concrete inputs: with the custom resolved style the
timeout performs one silent switch to the default style; with the default
style already resolved it records the terminal timeout error. -/
theorem C5_witness :
    ((step demoProps (runEvents demoProps initState (traceC4.take 4))
        (Ev.timeoutEvent false)).actions
      = (runEvents demoProps initState (traceC4.take 4)).actions
          ++ [Action.setStyle defaultStyleId]) ∧
    ((step demoProps (runEvents demoProps initState (traceC4.take 4))
        (Ev.timeoutEvent false)).error
      = (runEvents demoProps initState (traceC4.take 4)).error) ∧
    ((step { demoProps with styleUrl := some defaultStyleId }
        (runEvents { demoProps with styleUrl := some defaultStyleId } initState
          (traceC4.take 4))
        (Ev.timeoutEvent false)).error = some timeoutErrorMsg) := by
  have h1 := C5_timeout_fallback_or_terminal demoProps
    (runEvents demoProps initState (traceC4.take 4)) (by decide)
  have h2 := C5_timeout_fallback_or_terminal
    { demoProps with styleUrl := some defaultStyleId }
    (runEvents { demoProps with styleUrl := some defaultStyleId } initState
      (traceC4.take 4)) (by decide)
  exact ⟨(h1.1 (by decide)).2.2.1, (h1.1 (by decide)).1,
    (h2.2.1 false (by decide)).1⟩

/-- Claim C6 is false as stated: when neither `styleUrl` nor
`localStylePath` is supplied, the style passed to map creation is the
hardcoded personal style identifier of line 228, not the built-in default
identifier (`streets-v12`, the target of every automatic fallback). -/
theorem C6_counterexample :
    resolveMapStyle none none = customStyleId ∧
    customStyleId ≠ defaultStyleId :=
  ⟨rfl, by decide⟩

/-- Claim C6, amended: style resolution follows the fixed priority
styleUrl > localStylePath > the hardcoded custom identifier of line 228
(not the built-in default identifier); in particular, when both a
non-empty `styleUrl` and a `localStylePath` are supplied, `styleUrl` is
the style passed to map creation, and an empty-string prop is treated as
absent (JavaScript falsiness). -/
theorem C6_style_priority :
    (∀ (u : String) (l : Option String), u ≠ "" → resolveMapStyle (some u) l = u) ∧
    (∀ l : String, l ≠ "" → resolveMapStyle none (some l) = l) ∧
    resolveMapStyle none none = customStyleId ∧
    (∀ l : Option String, resolveMapStyle (some "") l = resolveMapStyle none l) := by
  refine ⟨fun u l hu => ?_, fun l hl => ?_, rfl, fun l => ?_⟩
  · unfold resolveMapStyle strTruthy
    simp [hu]
  · unfold resolveMapStyle strTruthy
    simp [hl]
  · unfold resolveMapStyle strTruthy
    simp

/-- Witness for the amended C6 at concrete inputs: with both props
supplied the remote style identifier wins; with only the local path
supplied the local path is used. -/
theorem C6_witness :
    resolveMapStyle (some "mapbox://styles/me/custom")
        (some "/styles/rdr2-style/style.json") = "mapbox://styles/me/custom" ∧
    resolveMapStyle none (some "/styles/rdr2-style/style.json")
      = "/styles/rdr2-style/style.json" :=
  ⟨C6_style_priority.1 "mapbox://styles/me/custom"
      (some "/styles/rdr2-style/style.json") (by decide),
   C6_style_priority.2.1 "/styles/rdr2-style/style.json" (by decide)⟩

/-- Claim C7 (confirmed): every geolocation failure maps its code to
exactly one message — permission denied (1), position unavailable (2),
timeout (3), and the generic message for any other code — records it as
the location error, and resolves the coordinates to the fixed London
fallback, so the system always proceeds with resolved coordinates. -/
theorem C7_geolocation_failure (code : Nat) (s : CState) :
    (geoFailureStep code s).locationError = some (geoErrorMessage code) ∧
    (geoFailureStep code s).userLocation = some londonFallback ∧
    geoErrorMessage 1 = "Location access denied by user" ∧
    geoErrorMessage 2 = "Location information is unavailable" ∧
    geoErrorMessage 3 = "Location request timed out" ∧
    (code ≠ 1 → code ≠ 2 → code ≠ 3 →
      geoErrorMessage code = "Unable to get your location") := by
  refine ⟨rfl, rfl, rfl, rfl, rfl, fun h1 h2 h3 => ?_⟩
  unfold geoErrorMessage
  simp [h1, h2, h3]

/-- Witness for C7 at a concrete input: an unknown failure code yields
the generic message and the London fallback. -/
theorem C7_witness :
    (geoFailureStep 42 initState).locationError = some "Unable to get your location" ∧
    (geoFailureStep 42 initState).userLocation = some londonFallback := by
  have h := C7_geolocation_failure 42 initState
  have hmsg := h.2.2.2.2.2 (by decide) (by decide) (by decide)
  exact ⟨by rw [h.1, hmsg], h.2.1⟩

/-- Claim C8 is false as stated: on the concrete valid schedule `traceC8`
the SDK delivers two style-related error events within one creation
attempt and the controller issues two automatic `setStyle` fallback
calls — the fallback is not attempted at most once. -/
theorem C8_counterexample :
    validFrom demoProps initState traceC8 = true ∧
    ((runEvents demoProps initState traceC8).actions.filter
        (fun a => a = Action.setStyle defaultStyleId)).length = 2 := by
  refine ⟨by decide, by decide⟩

/-- Claim C8, amended: the automatic fallback switch triggered by
style-indicating error events carries no once-per-creation-attempt
guard — every such event issues one more `setStyle` call to the same
built-in default style (so n events issue n calls); it is not a retry
loop only in that each call targets the fixed default style. -/
theorem C8_fallback_unguarded (p : Props) (s : CState) (m : String) (n : Nat)
    (hmap : s.mapInstance.isSome = true) (hstyle : strIncludes m "style" = true) :
    ((runEvents p s (List.replicate n (Ev.errorEvent (some m)))).actions.filter
        (fun a => a = Action.setStyle defaultStyleId)).length
      = (s.actions.filter (fun a => a = Action.setStyle defaultStyleId)).length + n := by
  induction n generalizing s with
  | zero => simp [runEvents]
  | succ k ih =>
    have hspec := errorEventStep_style_spec s m hmap hstyle
    have hrun : runEvents p s (List.replicate (k + 1) (Ev.errorEvent (some m)))
        = runEvents p (step p s (Ev.errorEvent (some m)))
            (List.replicate k (Ev.errorEvent (some m))) := by
      simp [runEvents, List.replicate_succ]
    rw [hrun]
    have hmap' : (step p s (Ev.errorEvent (some m))).mapInstance.isSome = true := by
      show (errorEventStep (some m) s).mapInstance.isSome = true
      rw [hspec.2.2.1]
      rfl
    rw [ih _ hmap']
    have hact : (step p s (Ev.errorEvent (some m))).actions
        = s.actions ++ [Action.setStyle defaultStyleId] := hspec.2.2.2
    rw [hact]
    simp [List.filter_append]
    omega

/-- Witness for the amended C8 at a concrete input: from the live-map
state of `traceC8`, two further style-related error events add exactly
two `setStyle` fallback calls. -/
theorem C8_witness :
    ((runEvents demoProps (runEvents demoProps initState (traceC8.take 4))
        (List.replicate 2 (Ev.errorEvent (some "bad style")))).actions.filter
        (fun a => a = Action.setStyle defaultStyleId)).length
      = ((runEvents demoProps initState (traceC8.take 4)).actions.filter
          (fun a => a = Action.setStyle defaultStyleId)).length + 2 :=
  C8_fallback_unguarded demoProps _ "bad style" 2 (by decide) (by decide)

/-- A single transition never reads `selectedLocation`: two prop records
differing only there produce identical steps. -/
theorem step_ignores_selected (ak : String) (su lp : Option String)
    (sel₁ sel₂ : Option Coord) (st : CState) (e : Ev) :
    step ⟨ak, su, lp, sel₁⟩ st e = step ⟨ak, su, lp, sel₂⟩ st e := by
  cases e <;> rfl

/-- Event deliverability never reads `selectedLocation`. -/
theorem evGuard_ignores_selected (ak : String) (su lp : Option String)
    (sel₁ sel₂ : Option Coord) (st : CState) (e : Ev) :
    evGuard ⟨ak, su, lp, sel₁⟩ st e = evGuard ⟨ak, su, lp, sel₂⟩ st e := by
  cases e <;> rfl

/-- Whole runs never read `selectedLocation`. -/
theorem runEvents_ignores_selected (ak : String) (su lp : Option String)
    (sel₁ sel₂ : Option Coord) (st : CState) (evs : List Ev) :
    runEvents ⟨ak, su, lp, sel₁⟩ st evs = runEvents ⟨ak, su, lp, sel₂⟩ st evs := by
  induction evs generalizing st with
  | nil => rfl
  | cons e rest ih =>
    show runEvents _ (step ⟨ak, su, lp, sel₁⟩ st e) rest
        = runEvents _ (step ⟨ak, su, lp, sel₂⟩ st e) rest
    rw [step_ignores_selected ak su lp sel₁ sel₂ st e]
    exact ih _

/-- Schedule validity never reads `selectedLocation`. -/
theorem validFrom_ignores_selected (ak : String) (su lp : Option String)
    (sel₁ sel₂ : Option Coord) (st : CState) (evs : List Ev) :
    validFrom ⟨ak, su, lp, sel₁⟩ st evs = validFrom ⟨ak, su, lp, sel₂⟩ st evs := by
  induction evs generalizing st with
  | nil => rfl
  | cons e rest ih =>
    show (evGuard ⟨ak, su, lp, sel₁⟩ st e
          && validFrom ⟨ak, su, lp, sel₁⟩ (step ⟨ak, su, lp, sel₁⟩ st e) rest)
        = (evGuard ⟨ak, su, lp, sel₂⟩ st e
          && validFrom ⟨ak, su, lp, sel₂⟩ (step ⟨ak, su, lp, sel₂⟩ st e) rest)
    rw [evGuard_ignores_selected ak su lp sel₁ sel₂ st e,
      step_ignores_selected ak su lp sel₁ sel₂ st e]
    rw [ih (step ⟨ak, su, lp, sel₂⟩ st e)]

/-- Claim C9 (confirmed): `selectedLocation` has no effect on any
observable behaviour — for any two runs identical except in its value,
the reachable states (hence map center, marker position, and SDK call
log), the set of valid schedules, and the rendered output coincide. -/
theorem C9_selected_location_inert (ak : String) (su lp : Option String)
    (sel₁ sel₂ : Option Coord) (st : CState) (evs : List Ev) :
    runEvents ⟨ak, su, lp, sel₁⟩ st evs = runEvents ⟨ak, su, lp, sel₂⟩ st evs ∧
    validFrom ⟨ak, su, lp, sel₁⟩ st evs = validFrom ⟨ak, su, lp, sel₂⟩ st evs ∧
    render (runEvents ⟨ak, su, lp, sel₁⟩ st evs)
      = render (runEvents ⟨ak, su, lp, sel₂⟩ st evs) :=
  ⟨runEvents_ignores_selected ak su lp sel₁ sel₂ st evs,
   validFrom_ignores_selected ak su lp sel₁ sel₂ st evs,
   congrArg render (runEvents_ignores_selected ak su lp sel₁ sel₂ st evs)⟩

/-- Claim C10 (confirmed): within a single `createMap` invocation the
center passed to map construction and the anchor of the player marker
placed by the `'load'` handler are the same expression
(`userLocation || [-0.09, 51.505]`) evaluated on the same captured
location, so the map is initially centered exactly on the marker. -/
theorem C10_center_equals_marker_anchor (p : Props) (s : CState) (b : Bool) :
    mapCenter s.userLocation = playerLocation s.userLocation ∧
    (step p s Ev.createMapEv).actions
      = s.actions ++ [Action.newMap (mapCenter s.userLocation)
          (resolveMapStyle p.styleUrl p.localStylePath)] ∧
    (step p (step p s Ev.createMapEv) (Ev.loadEvent b)).markerInstance
      = some (some (mapCenter s.userLocation)) := by
  refine ⟨rfl, rfl, ?_⟩
  simp only [step]
  unfold loadStep createMapStep
  rcases hmk : s.markerInstance with _ | _ <;>
    simp [hmk, playerLocation, mapCenter]

end MapboxMap
